import Mathlib

/-!
Verification of the ctgen task execution engine (`src/task.rs`, `src/profile.rs`,
`src/task/context.rs`, `src/task/prompt.rs`, `src/lib.rs`, `src/error.rs`) as a
shallow embedding.  External collaborators (the MariaDB reflection adapter,
the handlebars renderer, the filesystem and the process environment) are
modelled as explicit data / function parameters, mirroring the capability
interfaces they expose to this crate.
-/

/-- `serde_json::Value` as used for prompt answers. -/
inductive JsonValue where
  | null
  | bool (b : Bool)
  | num (n : Int)
  | str (s : String)
  | arr (elems : List JsonValue)
  | obj (fields : List (String × JsonValue))

/-- `serde_json::Value::as_str`: `Some` exactly for string values. -/
def JsonValue.as_str : JsonValue → Option String
  | .str s => some s
  | _ => none

/-- `toml::Value` as it occurs in prompt `options` (floats/datetimes are not
used by any claim and are omitted). -/
inductive TomlValue where
  | str (s : String)
  | int (n : Int)
  | bool (b : Bool)
  | arr (elems : List TomlValue)
  | table (fields : List (String × TomlValue))

/-- `toml::Value::is_str`. -/
def TomlValue.is_str : TomlValue → Bool
  | .str _ => true
  | _ => false

/-- `toml::Value::as_str`. -/
def TomlValue.as_str : TomlValue → Option String
  | .str s => some s
  | _ => none

mutual

/-- The `Value::from_str(&serde_json::to_string(prompt.options())?)?` round trip
in `render_prompt`: a structural toml-to-json conversion. -/
def TomlValue.toJson : TomlValue → JsonValue
  | .str s => .str s
  | .int n => .num n
  | .bool b => .bool b
  | .arr elems => .arr (TomlValue.listToJson elems)
  | .table fields => .obj (TomlValue.fieldsToJson fields)

/-- Elementwise `TomlValue.toJson` on an array. -/
def TomlValue.listToJson : List TomlValue → List JsonValue
  | [] => []
  | v :: rest => v.toJson :: TomlValue.listToJson rest

/-- Elementwise `TomlValue.toJson` on table entries. -/
def TomlValue.fieldsToJson : List (String × TomlValue) → List (String × JsonValue)
  | [] => []
  | (k, v) :: rest => (k, v.toJson) :: TomlValue.fieldsToJson rest

end

/-- `CtGenError` from `src/error.rs`. -/
inductive CtGenError where
  | InitError (msg : String)
  | ValidationError (msg : String)
  | RuntimeError (msg : String)
  | DatabaseError (msg : String)
deriving DecidableEq

/-- The `anyhow::Error` carried by `Result` in the crate: either a `CtGenError`
or an error of an external collaborator passing through the `?` operator
(handlebars render errors, I/O errors, sqlx/database errors). -/
inductive AnyError where
  | ctgen (e : CtGenError)
  | render (msg : String)
  | io (msg : String)
  | db (msg : String)
deriving DecidableEq

/-- `CtGenPrompt` from `src/profile.rs`. -/
structure CtGenPrompt where
  condition : Option String
  enumerate : Option String
  prompt : String
  options : TomlValue
  multiple : Bool
  ordered : Bool
  required : Bool

/-- `CtGenTarget` from `src/profile.rs`. -/
structure CtGenTarget where
  condition : Option String
  template : String
  target : String
  formatter : Option String

/-- `CtGenProfileConfig` from `src/profile.rs`. -/
structure CtGenProfileConfig where
  name : String
  env_file : String
  env_var : String
  dsn : String
  target_dir : String
  templates_dir : String
  scripts_dir : String
  prompts : List String
  targets : List String

/-- `CtGenProfile` from `src/profile.rs`.  The two `HashMap`s are modelled as
association lists with unique keys; only `get` is used by the code under
verification, so the representation choice is observationally irrelevant. -/
structure CtGenProfile where
  name : String
  profile : CtGenProfileConfig
  prompt : List (String × CtGenPrompt)
  target : List (String × CtGenTarget)
  context_dir : String

/-- `CtGenProfile::configuration`. -/
def CtGenProfile.configuration (p : CtGenProfile) : CtGenProfileConfig :=
  p.profile

/-- `CtGenProfile::prompts` (the ordered id list). -/
def CtGenProfile.promptsList (p : CtGenProfile) : List String :=
  p.profile.prompts

/-- `CtGenProfile::targets` (the ordered id list). -/
def CtGenProfile.targetsList (p : CtGenProfile) : List String :=
  p.profile.targets

/-- `CtGenProfile::prompt(name)`: lookup in the prompt mapping. -/
def CtGenProfile.promptNamed (p : CtGenProfile) (name : String) : Option CtGenPrompt :=
  p.prompt.lookup name

/-- `CtGenProfile::target(name)`: lookup in the target mapping. -/
def CtGenProfile.targetNamed (p : CtGenProfile) (name : String) : Option CtGenTarget :=
  p.target.lookup name

/-- `CtGenProfileConfigOverrides` from `src/profile.rs`. -/
structure CtGenProfileConfigOverrides where
  env_file : Option String
  env_var : Option String
  dsn : Option String
  target_dir : Option String

/-- A reflected table of the external `database_reflection` library (only its
name is consumed by this crate's control flow). -/
structure Table where
  name : String
deriving DecidableEq

/-- The reflected `Database` of the external `database_reflection` library. -/
structure Database where
  tables : List Table
deriving DecidableEq

/-- `Database::table(name)` of the reflection library: find a table by name. -/
def Database.table (d : Database) (n : String) : Option Table :=
  d.tables.find? (fun t => t.name == n)

/-- The `MariadbInnodbReflectionAdapter<Connected<MySql>>` capability as
consumed by this crate: current bound database name, `list_table_names`,
and `get_reflection`.  The live adapter calls are modelled as pure reads of
this record; `set_database_name` rebinds the name. -/
structure ReflectionAdapter where
  database_name : String
  table_names : List String
  reflection : Database

/-- `ReflectionAdapter::set_database_name` (the external bind, modelled as the
field update it performs on success). -/
def ReflectionAdapter.set_database_name (a : ReflectionAdapter) (s : String) : ReflectionAdapter :=
  { a with database_name := s }

/-- `CtGenTaskContext` from `src/task/context.rs`.  The `constraints_local` /
`constraints_foreign` partitions, the timestamp and the version tag are
produced by external collaborators and never read back by the code under
verification, so they are not carried. -/
structure CtGenTaskContext where
  database : Database
  table_name : String
  table : Table
  prompts : List (String × JsonValue)

/-- `HashMap::insert` on the association-list model: replaces any binding of
the key and records the new one. -/
def insertAssoc {α : Type} (m : List (String × α)) (k : String) (v : α) : List (String × α) :=
  (m.filter (fun p => p.1 ≠ k)) ++ [(k, v)]

/-- `CtGenTaskContext::new`: requires the subject table to exist in the
reflected database, else `ValidationError`; starts with no prompt answers
(`..Default::default()`). -/
def CtGenTaskContext.new (database : Database) (table_name : String) :
    Except CtGenError CtGenTaskContext :=
  match database.table table_name with
  | none => .error (.ValidationError ("Table not found: " ++ table_name))
  | some table => .ok { database := database, table_name := table_name, table := table, prompts := [] }

/-- `CtGenTaskContext::set_prompt_answer`. -/
def CtGenTaskContext.set_prompt_answer (c : CtGenTaskContext) (prompt_id : String)
    (prompt_answer : JsonValue) : CtGenTaskContext :=
  { c with prompts := insertAssoc c.prompts prompt_id prompt_answer }

/-- `CtGenTaskPrompt` from `src/task/prompt.rs`. -/
inductive CtGenTaskPrompt where
  | PromptDatabase
  | PromptTable
  | PromptGeneric (prompt_id : String) (prompt_data : CtGenPrompt)

/-- `CtGenRenderedPrompt` as constructed by `CtGenTask::render_prompt` in
`src/task.rs` (the fields that constructor call populates). -/
structure CtGenRenderedPrompt where
  should_ask : Bool
  prompt : String
  options : JsonValue
  multiple : Bool

/-- The handlebars renderer capability as consumed by the task: render an ad
hoc template string against the context (`Handlebars::render_template`) and
render a registered template by name (`Handlebars::render`).  Both can fail. -/
structure Handlebars where
  render_template : Option CtGenTaskContext → String → Except String String
  render : Option CtGenTaskContext → String → Except String String

/-- `CtGenTask` from `src/task.rs`. -/
structure CtGenTask where
  profile : CtGenProfile
  overrides : Option CtGenProfileConfigOverrides
  prompts : List CtGenTaskPrompt
  prompt_answers : List (String × JsonValue)
  reflection_adapter : ReflectionAdapter
  table : Option String
  context_dir : String
  target_dir : String
  context : Option CtGenTaskContext
  renderer : Handlebars

/-- `CtGenTask::render`: ad hoc template rendering against `self.context`. -/
def CtGenTask.render (t : CtGenTask) (template_content : String) : Except AnyError String :=
  match t.renderer.render_template t.context template_content with
  | .ok s => .ok s
  | .error e => .error (.render e)

/-- `CtGenTask::render_template`: named template rendering against `self.context`. -/
def CtGenTask.renderNamed (t : CtGenTask) (template_name : String) : Except AnyError String :=
  match t.renderer.render t.context template_name with
  | .ok s => .ok s
  | .error e => .error (.render e)

/-- `CtGenTask::prompts_unanswered`: filter the prompt list by the
per-variant satisfaction predicate, recomputed from current state. -/
def CtGenTask.prompts_unanswered (t : CtGenTask) : List CtGenTaskPrompt :=
  t.prompts.filter fun p =>
    match p with
    | .PromptGeneric prompt_id _ => !(t.prompt_answers.lookup prompt_id).isSome
    | .PromptDatabase => t.reflection_adapter.database_name.isEmpty
    | .PromptTable => t.table.isNone

/-- `CtGenTask::is_context_ready`. -/
def CtGenTask.is_context_ready (t : CtGenTask) : Bool :=
  t.context.isSome && t.prompts_unanswered.isEmpty

/-- Rust `str::trim`: strip leading and trailing whitespace.  (Defined over
the character list so that it evaluates by kernel reduction; Rust trims by
Unicode `White_Space`, of which the ASCII subset modelled by
`Char.isWhitespace` is the part exercised here.) -/
def rustTrim (s : String) : String :=
  String.mk (((s.toList.dropWhile Char.isWhitespace).reverse.dropWhile Char.isWhitespace).reverse)

/-- `CtGenTask::update_context`: if a context exists, every recorded prompt
answer is written into it; otherwise, if a database is bound and a subject
table is set, a fresh context is built from the reflection (note: the fresh
context is returned as built by `CtGenTaskContext::new`, with no folding of
`prompt_answers` in this branch).  `get_reflection` is modelled as the pure
read `reflection_adapter.reflection`.  State mutations performed before a
late failure survive it (`&mut self`), so the result is the new state paired
with an optional error. -/
def CtGenTask.update_context (t : CtGenTask) : CtGenTask × Option AnyError :=
  match t.context with
  | some ctx =>
      let ctx2 := t.prompt_answers.foldl (fun c p => c.set_prompt_answer p.1 p.2) ctx
      ({ t with context := some ctx2 }, none)
  | none =>
      if !t.reflection_adapter.database_name.isEmpty then
        match t.table with
        | some tbl =>
            match CtGenTaskContext.new t.reflection_adapter.reflection tbl with
            | .ok c => ({ t with context := some c }, none)
            | .error e => (t, some (.ctgen e))
        | none => (t, none)
      else (t, none)

/-- The required-answer validity check inside `CtGenTask::set_prompt_answer`
(lines 318-328 of `src/task.rs`): with `required` set, a string answer whose
trim is empty or an empty array answer is invalid; every other answer shape
passes. -/
def CtGenTask.invalid_required_answer (prompt_data : CtGenPrompt) (answer : JsonValue) : Bool :=
  prompt_data.required &&
    match answer with
    | .str s => rustTrim s == ""
    | .arr ar => ar.isEmpty
    | _ => false

/-- `CtGenTask::set_prompt_answer`. -/
def CtGenTask.set_prompt_answer (t : CtGenTask) (prompt : CtGenTaskPrompt)
    (answer : JsonValue) : CtGenTask × Option AnyError :=
  match prompt with
  | .PromptDatabase =>
      ({ t with reflection_adapter :=
          t.reflection_adapter.set_database_name ((answer.as_str).getD "") } : CtGenTask).update_context
  | .PromptTable =>
      if t.reflection_adapter.table_names.contains ((answer.as_str).getD "") then
        ({ t with table := some ((answer.as_str).getD "") } : CtGenTask).update_context
      else
        (t, some (.ctgen (.ValidationError "Table does not exist")))
  | .PromptGeneric prompt_id prompt_data =>
      if CtGenTask.invalid_required_answer prompt_data answer then
        (t, some (.ctgen (.ValidationError ("Invalid answer to prompt " ++ prompt_id))))
      else
        ({ t with prompt_answers := insertAssoc t.prompt_answers prompt_id answer } : CtGenTask).update_context

/-- `CtGenTask::render_prompt`: evaluate the condition (a failed render is
discarded by `.ok()`), render the prompt text, resolve the options, and set
`should_ask` to "condition absent, or present and trimming to 1". -/
def CtGenTask.render_prompt (t : CtGenTask) (prompt : CtGenPrompt) :
    Except AnyError CtGenRenderedPrompt :=
  let condition : Option String :=
    match prompt.condition with
    | some condition => (t.render condition).toOption
    | none => none
  match t.render prompt.prompt with
  | .error e => .error e
  | .ok prompt_text =>
    let options_step : Except AnyError JsonValue :=
      if prompt.options.is_str then
        match t.render ((prompt.options.as_str).getD "") with
        | .error e => .error e
        | .ok rendered => .ok (JsonValue.arr ((rendered.splitOn ",").map JsonValue.str))
      else
        .ok prompt.options.toJson
    match options_step with
    | .error e => .error e
    | .ok options =>
      let condition_met := condition.isNone || condition.any (fun s => rustTrim s == "1")
      .ok { should_ask := condition_met, prompt := prompt_text, options := options,
            multiple := prompt.multiple }

/-- `MAIN_SEPARATOR` of the modelled (unix) platform. -/
def MAIN_SEPARATOR : String := "/"

/-- `CtGen::get_filepath` from `src/lib.rs`. -/
def CtGen.get_filepath (path file : String) : String :=
  path ++ MAIN_SEPARATOR ++ file

/-- Leading-match check on character lists (helper for `containsSubstring`). -/
def leadingMatch : List Char → List Char → Bool
  | [], _ => true
  | _ :: _, [] => false
  | a :: as, b :: bs => a == b && leadingMatch as bs

/-- Infix check on character lists (helper for `containsSubstring`). -/
def infixMatch (needle : List Char) : List Char → Bool
  | [] => leadingMatch needle []
  | b :: bs => leadingMatch needle (b :: bs) || infixMatch needle bs

/-- Rust `str::contains(substring)`. -/
def containsSubstring (haystack needle : String) : Bool :=
  infixMatch needle.toList haystack.toList

/-- A file written by `render_target` (the `OpenOptions` write, truncating or
creating the path). -/
structure WrittenFile where
  path : String
  contents : String
deriving DecidableEq

/-- `CtGenTask::render_target`: render the body from the named template,
resolve the output path (rendering it when it carries template delimiters),
and write the body to the canonical path under the target dir.  Directory
creation and the optional formatter subprocess are external effects with no
influence on the claims; the write itself is the returned value. -/
def CtGenTask.render_target (t : CtGenTask) (target : CtGenTarget) :
    Except AnyError WrittenFile := do
  let output ← t.renderNamed target.template
  let target_file ←
    if containsSubstring target.target "\x7b\x7b" && containsSubstring target.target "\x7d\x7d" then
      t.render target.target
    else
      pure target.target
  pure { path := CtGen.get_filepath t.target_dir target_file, contents := output }

/-- The target loop of `CtGenTask::run`: process target ids in declaration
order; ids absent from the target mapping are skipped; a present condition is
rendered (a render failure aborts with that error), and a trimmed render
other than `"1"` breaks out of the loop with success; otherwise the target is
rendered and written.  Returns the files written (also those before a late
failure) and the final outcome. -/
def CtGenTask.run_targets (t : CtGenTask) : List String → List WrittenFile × Option AnyError
  | [] => ([], none)
  | target_name :: rest =>
    match t.profile.targetNamed target_name with
    | some target =>
      match target.condition with
      | some condition =>
        match t.render condition with
        | .error e => ([], some e)
        | .ok evaluated_condition =>
          if rustTrim evaluated_condition != "1" then
            ([], none)
          else
            match t.render_target target with
            | .error e => ([], some e)
            | .ok w =>
              let r := t.run_targets rest
              (w :: r.1, r.2)
      | none =>
        match t.render_target target with
        | .error e => ([], some e)
        | .ok w =>
          let r := t.run_targets rest
          (w :: r.1, r.2)
    | none => t.run_targets rest

/-- `CtGenTask::run`: refuse with a runtime error when the context is not
ready, else run the target loop over the profile's declared target ids. -/
def CtGenTask.run (t : CtGenTask) : List WrittenFile × Option AnyError :=
  if !t.is_context_ready then
    ([], some (.ctgen (.RuntimeError "Context not ready to run all render tasks.")))
  else
    t.run_targets t.profile.targetsList

/-- The repeated override-or-profile directive resolution at the top of
`CtGenTask::new` (`overrides.env_file().unwrap_or(config.env_file())` etc.). -/
def effectiveDirective (overrides : Option CtGenProfileConfigOverrides)
    (get : CtGenProfileConfigOverrides → Option String) (profile_value : String) : String :=
  match overrides with
  | some o =>
    match get o with
    | some v => v
    | none => profile_value
  | none => profile_value

/-- The DSN resolution block of `CtGenTask::new` (lines 96-118 of
`src/task.rs`): an explicit non-empty DSN is used verbatim; otherwise the
env-file must be non-empty, is loaded (`dotenvy::from_filename`, modelled by
the `load_env_file` capability), the env-var must be non-empty and is read
from the process environment (`std::env::var`, modelled by `env_var_value`);
every failure is a `ValidationError`, raised in exactly this order. -/
def resolve_dsn (dsn env_file env_var : String)
    (load_env_file : String → Except String Unit)
    (env_var_value : String → Except String String) : Except CtGenError String :=
  if dsn.isEmpty then
    if env_file.isEmpty then
      .error (.ValidationError "Invalid env-file specified. Either valid DSN or valid env-file is required.")
    else
      match load_env_file env_file with
      | .error e => .error (.ValidationError ("Invaid env file specified: " ++ e))
      | .ok _ =>
        if env_var.isEmpty then
          .error (.ValidationError "Invalid env-var specified. Either valid DSN or valid env-file and env-var is required.")
        else
          match env_var_value env_var with
          | .error e => .error (.ValidationError ("Invaid env var specified: " ++ e))
          | .ok v => .ok v
  else
    .ok dsn

/-- The generic-prompt loop of `CtGenTask::new`:
`prompts.push(PromptGeneric { prompt_id, prompt_data: profile.prompt(name).unwrap().clone() })`
per declared prompt id, in order; `none` models the panic of `.unwrap()` on a
prompt id missing from the prompt mapping. -/
def build_generic_prompts (p : CtGenProfile) : List String → Option (List CtGenTaskPrompt)
  | [] => some []
  | prompt_name :: rest =>
    match p.promptNamed prompt_name with
    | none => none
    | some d =>
      match build_generic_prompts p rest with
      | none => none
      | some more => some (CtGenTaskPrompt.PromptGeneric prompt_name d :: more)

/-- The external effects consumed by `CtGenTask::new`: env-file loading, env
variable lookup, the database connection, the filesystem checks and directory
creation, and the handlebars registry built from the profile's template and
script directories. -/
structure ExternalWorld where
  load_env_file : String → Except String Unit
  env_var_value : String → Except String String
  connect : String → Except String ReflectionAdapter
  file_exists : String → Bool
  file_is_writable : String → Bool
  init_config_dir : String → Except String Unit
  renderer : Handlebars

/-- Outcome of `CtGenTask::new`: success, an `Err` return, or a Rust panic
(`Option::unwrap` on `None`). -/
inductive NewOutcome where
  | ok (task : CtGenTask)
  | error (e : AnyError)
  | panicked

/-- `CtGenTask::new` from `src/task.rs`: resolve effective directives, resolve
the DSN, resolve and validate the canonical target directory, connect, build
the ordered prompt list (`PromptDatabase` when no database is bound,
`PromptTable` when no subject table was supplied — a supplied table must be
among the reflected table names — then one `PromptGeneric` per declared
prompt id, where `profile.prompt(name).unwrap()` panics on a missing id), and
pre-create the context when both database and table are known.  Renderer
registration failures are external I/O not modelled (registration errors
would surface before the returned task is usable). -/
def CtGenTask.new (w : ExternalWorld) (profile : CtGenProfile) (context_dir : String)
    (table : Option String) (profile_overrides : Option CtGenProfileConfigOverrides) :
    NewOutcome :=
  let env_file := effectiveDirective profile_overrides (fun o => o.env_file) profile.configuration.env_file
  let env_var := effectiveDirective profile_overrides (fun o => o.env_var) profile.configuration.env_var
  let dsn0 := effectiveDirective profile_overrides (fun o => o.dsn) profile.configuration.dsn
  let target_dir := effectiveDirective profile_overrides (fun o => o.target_dir) profile.configuration.target_dir
  match resolve_dsn dsn0 env_file env_var w.load_env_file w.env_var_value with
  | .error e => .error (.ctgen e)
  | .ok dsn =>
    let target_dir_step : Except AnyError String :=
      if target_dir.isEmpty || target_dir == "." then
        .ok context_dir
      else
        let target_fullpath := CtGen.get_filepath context_dir target_dir
        match w.init_config_dir target_fullpath with
        | .error e => .error (.ctgen (.InitError ("Cannot create config directory: " ++ e)))
        | .ok _ => .ok target_fullpath
    match target_dir_step with
    | .error e => .error e
    | .ok canonical_target_dir =>
      if !(w.file_exists canonical_target_dir && w.file_is_writable canonical_target_dir) then
        .error (.ctgen (.ValidationError "Invalid target-dir specified."))
      else
        match w.connect dsn with
        | .error e => .error (.db e)
        | .ok reflection_adapter =>
          let table_check : Except CtGenError Unit :=
            match table with
            | some tbl =>
              if reflection_adapter.table_names.contains tbl then .ok ()
              else .error (.ValidationError "Table does not exist")
            | none => .ok ()
          match table_check with
          | .error e => .error (.ctgen e)
          | .ok _ =>
            let prompts_dt : List CtGenTaskPrompt :=
              (if reflection_adapter.database_name.isEmpty then [CtGenTaskPrompt.PromptDatabase] else [])
                ++ (if table.isNone then [CtGenTaskPrompt.PromptTable] else [])
            let pre_create_context :=
              !reflection_adapter.database_name.isEmpty && table.isSome
            match build_generic_prompts profile profile.promptsList with
            | none => .panicked
            | some generic_prompts =>
              let prompts := prompts_dt ++ generic_prompts
              let mk : Option CtGenTaskContext → CtGenTask := fun context =>
                { profile := profile, overrides := profile_overrides, prompts := prompts,
                  prompt_answers := [], reflection_adapter := reflection_adapter,
                  table := table, context_dir := context_dir,
                  target_dir := canonical_target_dir, context := context,
                  renderer := w.renderer }
              if pre_create_context then
                match table with
                | some tbl =>
                  match CtGenTaskContext.new reflection_adapter.reflection tbl with
                  | .error e => .error (.ctgen e)
                  | .ok c => .ok (mk (some c))
                | none => .panicked
              else
                .ok (mk none)

/-- `CtGenProfile::templates_dir`. -/
def CtGenProfile.templatesDir (p : CtGenProfile) : String :=
  if p.configuration.templates_dir.isEmpty || p.configuration.templates_dir == "." then
    p.context_dir
  else
    CtGen.get_filepath p.context_dir p.configuration.templates_dir

/-- `CtGenProfile::scripts_dir`. -/
def CtGenProfile.scriptsDir (p : CtGenProfile) : String :=
  if p.configuration.scripts_dir.isEmpty || p.configuration.scripts_dir == "." then
    p.context_dir
  else
    CtGen.get_filepath p.context_dir p.configuration.scripts_dir

/-- The target loop of `CtGenProfile::validate`: every declared target id must
exist in the target mapping (else a `ValidationError`), and its template file
must exist under the templates dir. -/
def CtGenProfile.validate_targets (p : CtGenProfile) (file_exists : String → Bool)
    (canonical_templates_dir : String) : List String → Except CtGenError Unit
  | [] => .ok ()
  | target_name :: rest =>
    match p.targetNamed target_name with
    | none =>
      .error (.ValidationError ("Invalid target `" ++ target_name
        ++ "`. Make sure all included targets are actually declared."))
    | some target =>
      let template_canonical_path :=
        CtGen.get_filepath canonical_templates_dir (target.template ++ ".hbs")
      if !(file_exists template_canonical_path) then
        .error (.ValidationError ("Template file not found for target " ++ target_name ++ "."))
      else
        p.validate_targets file_exists canonical_templates_dir rest

/-- `CtGenProfile::validate`: templates dir and scripts dir must exist, then
the declared targets are checked; note that no check of the declared prompt
ids against the prompt mapping is performed anywhere. -/
def CtGenProfile.validate (p : CtGenProfile) (file_exists : String → Bool) :
    Except CtGenError Unit :=
  let canonical_templates_dir := p.templatesDir
  if !(file_exists canonical_templates_dir) then
    .error (.ValidationError "Invalid templates-dir specified.")
  else
    let canonical_scripts_dir := p.scriptsDir
    if !(file_exists canonical_scripts_dir) then
      .error (.ValidationError "Invalid scripts-dir specified.")
    else
      p.validate_targets file_exists canonical_templates_dir p.targetsList

/-! ## Concrete inputs used by witnesses and counterexamples -/

def egTable : Table := { name := "t1" }

def egDatabase : Database := { tables := [egTable] }

def egAdapter : ReflectionAdapter :=
  { database_name := "db1", table_names := ["t1"], reflection := egDatabase }

def egRenderer : Handlebars :=
  { render_template := fun _ s => .ok s, render := fun _ n => .ok ("body-" ++ n) }

def egConfig : CtGenProfileConfig :=
  { name := "p", env_file := ".env", env_var := "DATABASE_URL", dsn := "",
    target_dir := "out", templates_dir := "tpl", scripts_dir := "scripts",
    prompts := [], targets := [] }

def egProfile : CtGenProfile :=
  { name := "p", profile := egConfig, prompt := [], target := [], context_dir := "/ctx" }

def egContext : CtGenTaskContext :=
  { database := egDatabase, table_name := "t1", table := egTable, prompts := [] }

def egTask : CtGenTask :=
  { profile := egProfile, overrides := none, prompts := [], prompt_answers := [],
    reflection_adapter := egAdapter, table := some "t1", context_dir := "/ctx",
    target_dir := "/ctx/out", context := some egContext, renderer := egRenderer }

def egReqPrompt : CtGenPrompt :=
  { condition := none, enumerate := none, prompt := "q", options := TomlValue.bool false,
    multiple := false, ordered := false, required := true }

def c2Adapter : ReflectionAdapter :=
  { database_name := "", table_names := ["t1"], reflection := egDatabase }

def c2GenPrompt : CtGenPrompt :=
  { condition := none, enumerate := none, prompt := "color?", options := TomlValue.bool false,
    multiple := false, ordered := false, required := false }

/-- A task whose database is still unbound (so `PromptDatabase` is pending)
while the subject table is already set. -/
def c2Task0 : CtGenTask :=
  { profile := egProfile, overrides := none,
    prompts := [.PromptDatabase, .PromptGeneric "g" c2GenPrompt],
    prompt_answers := [], reflection_adapter := c2Adapter, table := some "t1",
    context_dir := "/ctx", target_dir := "/ctx/out", context := none, renderer := egRenderer }

/-- `c2Task0` after answering the generic prompt "g" with "x". -/
def c2Task1 : CtGenTask :=
  (c2Task0.set_prompt_answer (.PromptGeneric "g" c2GenPrompt) (.str "x")).1

/-- `c2Task1` after answering `PromptDatabase` with "db1" (this call creates
the context, both database and table now being known). -/
def c2Task2 : CtGenTask × Option AnyError :=
  c2Task1.set_prompt_answer .PromptDatabase (.str "db1")

def c8Renderer : Handlebars :=
  { render_template := fun _ s => if s = "BADCOND" then .error "template error" else .ok s,
    render := fun _ n => .ok n }

def c8Task : CtGenTask :=
  { egTask with renderer := c8Renderer }

def c8Prompt : CtGenPrompt :=
  { condition := some "BADCOND", enumerate := none, prompt := "ask?",
    options := TomlValue.bool false, multiple := false, ordered := false, required := false }

def c4Profile : CtGenProfile :=
  { name := "p",
    profile := { egConfig with dsn := "mysql://u@h/db", prompts := ["p"], targets := [] },
    prompt := [], target := [], context_dir := "/ctx" }

def c4World : ExternalWorld :=
  { load_env_file := fun _ => .ok (), env_var_value := fun _ => .error "unset",
    connect := fun _ => .ok egAdapter, file_exists := fun _ => true,
    file_is_writable := fun _ => true, init_config_dir := fun _ => .ok (),
    renderer := egRenderer }

/-- A profile declaring target id "z" with an empty target mapping. -/
def c4bProfile : CtGenProfile :=
  { name := "p", profile := { egConfig with targets := ["z"] },
    prompt := [], target := [], context_dir := "/ctx" }

def c1TargetA : CtGenTarget :=
  { condition := none, template := "ta", target := "fa.txt", formatter := none }

def c1TargetB : CtGenTarget :=
  { condition := some "0", template := "tb", target := "fb.txt", formatter := none }

def c1TargetC : CtGenTarget :=
  { condition := none, template := "tc", target := "fc.txt", formatter := none }

/-- A renderer whose ad hoc rendering echoes the template (so the condition
"0" renders to "0") and whose named rendering yields a distinct body. -/
def c1Renderer : Handlebars :=
  { render_template := fun _ s => .ok s, render := fun _ n => .ok ("body-" ++ n) }

def c1Profile : CtGenProfile :=
  { name := "p", profile := { egConfig with targets := ["a", "b", "c"] },
    prompt := [], target := [("a", c1TargetA), ("b", c1TargetB), ("c", c1TargetC)],
    context_dir := "/ctx" }

def c1Task : CtGenTask :=
  { egTask with profile := c1Profile, renderer := c1Renderer }

/-! ## Theorems -/

theorem lookup_append_last {α : Type} (k : String) (v : α) (l : List (String × α))
    (h : ∀ p ∈ l, p.1 ≠ k) : (l ++ [(k, v)]).lookup k = some v := by
  induction l with
  | nil => simp [List.lookup]
  | cons a l ih =>
    have ha : a.1 ≠ k := h a (by simp)
    have hb : (k == a.1) = false := by
      simp only [beq_eq_false_iff_ne]
      exact fun hk => ha hk.symm
    simp only [List.cons_append, List.lookup, hb]
    exact ih (fun p hp => h p (List.mem_cons_of_mem a hp))

theorem lookup_insertAssoc_self {α : Type} (m : List (String × α)) (k : String) (v : α) :
    (insertAssoc m k v).lookup k = some v := by
  apply lookup_append_last
  intro p hp
  have := List.of_mem_filter hp
  exact of_decide_eq_true this

theorem update_context_fst_prompt_answers (t : CtGenTask) :
    (t.update_context).1.prompt_answers = t.prompt_answers := by
  unfold CtGenTask.update_context
  repeat' split
  all_goals rfl

theorem update_context_fst_reflection_adapter (t : CtGenTask) :
    (t.update_context).1.reflection_adapter = t.reflection_adapter := by
  unfold CtGenTask.update_context
  repeat' split
  all_goals rfl

theorem update_context_fst_table (t : CtGenTask) :
    (t.update_context).1.table = t.table := by
  unfold CtGenTask.update_context
  repeat' split
  all_goals rfl

/-- C6: `prompts_unanswered` returns, in list order (a sublist of the prompt
list), exactly the prompts not yet satisfied — `PromptDatabase` iff no
database is bound, `PromptTable` iff no subject table is set, `PromptGeneric`
iff no answer is recorded under its id — recomputed from current state, so it
never contains `PromptDatabase` once a database is bound nor `PromptTable`
once a subject table is set. -/
theorem prompts_unanswered_characterization (t : CtGenTask) :
    t.prompts_unanswered.Sublist t.prompts
    ∧ (CtGenTaskPrompt.PromptDatabase ∈ t.prompts_unanswered
        ↔ CtGenTaskPrompt.PromptDatabase ∈ t.prompts ∧ t.reflection_adapter.database_name = "")
    ∧ (CtGenTaskPrompt.PromptTable ∈ t.prompts_unanswered
        ↔ CtGenTaskPrompt.PromptTable ∈ t.prompts ∧ t.table = none)
    ∧ (∀ id d, CtGenTaskPrompt.PromptGeneric id d ∈ t.prompts_unanswered
        ↔ CtGenTaskPrompt.PromptGeneric id d ∈ t.prompts ∧ t.prompt_answers.lookup id = none)
    ∧ (t.reflection_adapter.database_name ≠ "" → CtGenTaskPrompt.PromptDatabase ∉ t.prompts_unanswered)
    ∧ (∀ tbl, t.table = some tbl → CtGenTaskPrompt.PromptTable ∉ t.prompts_unanswered) := by
  have hdb : CtGenTaskPrompt.PromptDatabase ∈ t.prompts_unanswered
      ↔ CtGenTaskPrompt.PromptDatabase ∈ t.prompts ∧ t.reflection_adapter.database_name = "" := by
    simp [CtGenTask.prompts_unanswered, List.mem_filter, String.isEmpty_iff]
  have htbl : CtGenTaskPrompt.PromptTable ∈ t.prompts_unanswered
      ↔ CtGenTaskPrompt.PromptTable ∈ t.prompts ∧ t.table = none := by
    simp [CtGenTask.prompts_unanswered, List.mem_filter]
  refine ⟨List.filter_sublist t.prompts, hdb, htbl, ?_, ?_, ?_⟩
  · intro id d
    simp [CtGenTask.prompts_unanswered, List.mem_filter]
  · intro hne hmem
    exact hne (hdb.mp hmem).2
  · intro tbl htb hmem
    rw [(htbl.mp hmem).2] at htb
    cases htb

/-- Witness for C6 at a concrete task: a database and a subject table are
bound in `egTask`, so neither connection prompt is reported unanswered. -/
theorem prompts_unanswered_characterization_witness :
    CtGenTaskPrompt.PromptDatabase ∉ egTask.prompts_unanswered
    ∧ CtGenTaskPrompt.PromptTable ∉ egTask.prompts_unanswered := by
  have h := prompts_unanswered_characterization egTask
  exact ⟨h.2.2.2.2.1 (by decide), h.2.2.2.2.2 "t1" rfl⟩

/-- C5: with `required` set, a string answer trimming to empty and an empty
list answer are rejected with a validation error and leave the task unchanged
(nothing recorded), while a string with non-empty trim (in particular any
single non-whitespace character) and a one-element list are accepted and
recorded under the prompt id. -/
theorem required_prompt_answer_validation (t : CtGenTask) (id : String) (d : CtGenPrompt)
    (hreq : d.required = true) :
    (∀ s : String, rustTrim s = "" →
      t.set_prompt_answer (.PromptGeneric id d) (.str s)
        = (t, some (.ctgen (.ValidationError ("Invalid answer to prompt " ++ id)))))
    ∧ (t.set_prompt_answer (.PromptGeneric id d) (.arr [])
        = (t, some (.ctgen (.ValidationError ("Invalid answer to prompt " ++ id)))))
    ∧ (∀ s : String, rustTrim s ≠ "" →
        (t.set_prompt_answer (.PromptGeneric id d) (.str s)).1.prompt_answers.lookup id
          = some (.str s))
    ∧ (∀ v : JsonValue,
        (t.set_prompt_answer (.PromptGeneric id d) (.arr [v])).1.prompt_answers.lookup id
          = some (.arr [v])) := by
  refine ⟨?_, ?_, ?_, ?_⟩
  · intro s hs
    simp [CtGenTask.set_prompt_answer, CtGenTask.invalid_required_answer, hreq, hs]
  · simp [CtGenTask.set_prompt_answer, CtGenTask.invalid_required_answer, hreq]
  · intro s hs
    have hcond : CtGenTask.invalid_required_answer d (.str s) = false := by
      simp [CtGenTask.invalid_required_answer, hs]
    simp only [CtGenTask.set_prompt_answer, hcond, Bool.false_eq_true, if_false]
    rw [update_context_fst_prompt_answers]
    exact lookup_insertAssoc_self t.prompt_answers id (.str s)
  · intro v
    have hcond : CtGenTask.invalid_required_answer d (.arr [v]) = false := by
      simp [CtGenTask.invalid_required_answer]
    simp only [CtGenTask.set_prompt_answer, hcond, Bool.false_eq_true, if_false]
    rw [update_context_fst_prompt_answers]
    exact lookup_insertAssoc_self t.prompt_answers id (.arr [v])

/-- Witness for C5 at concrete inputs: the all-whitespace string and the empty
list are rejected without recording, `"a"` and a one-element list are
recorded. -/
theorem required_prompt_answer_validation_witness :
    egTask.set_prompt_answer (.PromptGeneric "q" egReqPrompt) (.str " ")
      = (egTask, some (.ctgen (.ValidationError "Invalid answer to prompt q")))
    ∧ egTask.set_prompt_answer (.PromptGeneric "q" egReqPrompt) (.arr [])
      = (egTask, some (.ctgen (.ValidationError "Invalid answer to prompt q")))
    ∧ (egTask.set_prompt_answer (.PromptGeneric "q" egReqPrompt) (.str "a")).1.prompt_answers.lookup "q"
      = some (.str "a")
    ∧ (egTask.set_prompt_answer (.PromptGeneric "q" egReqPrompt) (.arr [.str "x"])).1.prompt_answers.lookup "q"
      = some (.arr [.str "x"]) := by
  have h := required_prompt_answer_validation egTask "q" egReqPrompt rfl
  exact ⟨h.1 " " rfl, h.2.1, h.2.2.1 "a" (by decide), h.2.2.2 (.str "x")⟩

/-- C9: the `required` emptiness validation inspects only string and array
answers; any other JSON value (null, number, boolean, object) is accepted with
no validation error — the call just records it and updates the context — and
the answer is recorded under the prompt id. -/
theorem required_validation_skips_other_shapes (t : CtGenTask) (id : String) (d : CtGenPrompt)
    (answer : JsonValue) (_hreq : d.required = true)
    (hs : ∀ s, answer ≠ .str s) (ha : ∀ l, answer ≠ .arr l) :
    t.set_prompt_answer (.PromptGeneric id d) answer
      = CtGenTask.update_context { t with prompt_answers := insertAssoc t.prompt_answers id answer }
    ∧ (t.set_prompt_answer (.PromptGeneric id d) answer).1.prompt_answers.lookup id = some answer := by
  have hcond : CtGenTask.invalid_required_answer d answer = false := by
    cases answer with
    | str s => exact absurd rfl (hs s)
    | arr l => exact absurd rfl (ha l)
    | null => simp [CtGenTask.invalid_required_answer]
    | bool b => simp [CtGenTask.invalid_required_answer]
    | num n => simp [CtGenTask.invalid_required_answer]
    | obj fields => simp [CtGenTask.invalid_required_answer]
  constructor
  · simp only [CtGenTask.set_prompt_answer, hcond, Bool.false_eq_true, if_false]
  · simp only [CtGenTask.set_prompt_answer, hcond, Bool.false_eq_true, if_false]
    rw [update_context_fst_prompt_answers]
    exact lookup_insertAssoc_self t.prompt_answers id answer

/-- Witness for C9: `null` answered to a required prompt is accepted and
recorded. -/
theorem required_validation_skips_other_shapes_witness :
    (egTask.set_prompt_answer (.PromptGeneric "q" egReqPrompt) .null).1.prompt_answers.lookup "q"
      = some .null := by
  have h := required_validation_skips_other_shapes egTask "q" egReqPrompt .null rfl
    (by intro s hx; cases hx) (by intro l hx; cases hx)
  exact h.2

/-- C10: a non-string answer to `PromptDatabase` or `PromptTable` is coerced
by `as_str().unwrap_or_default()` to the empty string: for `PromptDatabase`
the empty string is bound as the database name; for `PromptTable`, whenever
`""` is not among the reflected table names, the call fails with a validation
error and leaves the task (in particular its subject table) unchanged. -/
theorem non_string_connection_answer (t : CtGenTask) (answer : JsonValue)
    (h : answer.as_str = none) :
    ((t.set_prompt_answer .PromptDatabase answer).1.reflection_adapter.database_name = ""
      ∧ t.set_prompt_answer .PromptDatabase answer
          = CtGenTask.update_context
              { t with reflection_adapter := t.reflection_adapter.set_database_name "" })
    ∧ (t.reflection_adapter.table_names.contains "" = false →
        t.set_prompt_answer .PromptTable answer
          = (t, some (.ctgen (.ValidationError "Table does not exist")))) := by
  refine ⟨⟨?_, ?_⟩, ?_⟩
  · simp only [CtGenTask.set_prompt_answer, h, Option.getD_none]
    rw [update_context_fst_reflection_adapter]
    rfl
  · simp only [CtGenTask.set_prompt_answer, h, Option.getD_none]
  · intro hc
    simp only [CtGenTask.set_prompt_answer, h, Option.getD_none, hc, Bool.false_eq_true, if_false]

/-- Witness for C10: answering with the number `5`. -/
theorem non_string_connection_answer_witness :
    (egTask.set_prompt_answer .PromptDatabase (.num 5)).1.reflection_adapter.database_name = ""
    ∧ egTask.set_prompt_answer .PromptTable (.num 5)
        = (egTask, some (.ctgen (.ValidationError "Table does not exist"))) := by
  have h := non_string_connection_answer egTask (.num 5) rfl
  exact ⟨h.1.1, h.2 rfl⟩

/-- C3: DSN resolution order in task construction.  A non-empty DSN directive
is used verbatim and the env-file / env-var capabilities are never consulted
(the result is the same for arbitrary such capabilities); with an empty DSN
the checks run in order: empty env-file fails, then the env-file is loaded
(load failure is a validation error), then an empty env-var fails, then the
variable is read (read failure is a validation error), each as a
`ValidationError`. -/
theorem resolve_dsn_spec :
    (∀ (dsn env_file env_var : String) (load1 load2 : String → Except String Unit)
        (read1 read2 : String → Except String String), dsn ≠ "" →
      resolve_dsn dsn env_file env_var load1 read1 = .ok dsn
      ∧ resolve_dsn dsn env_file env_var load1 read1
          = resolve_dsn dsn env_file env_var load2 read2)
    ∧ (∀ env_var load read, resolve_dsn "" "" env_var load read
        = .error (.ValidationError "Invalid env-file specified. Either valid DSN or valid env-file is required."))
    ∧ (∀ env_file env_var load read e, env_file ≠ "" → load env_file = .error e →
        resolve_dsn "" env_file env_var load read
          = .error (.ValidationError ("Invaid env file specified: " ++ e)))
    ∧ (∀ env_file load read, env_file ≠ "" → load env_file = .ok () →
        resolve_dsn "" env_file "" load read
          = .error (.ValidationError "Invalid env-var specified. Either valid DSN or valid env-file and env-var is required."))
    ∧ (∀ env_file env_var load read e, env_file ≠ "" → load env_file = .ok () →
        env_var ≠ "" → read env_var = .error e →
        resolve_dsn "" env_file env_var load read
          = .error (.ValidationError ("Invaid env var specified: " ++ e)))
    ∧ (∀ env_file env_var load read v, env_file ≠ "" → load env_file = .ok () →
        env_var ≠ "" → read env_var = .ok v →
        resolve_dsn "" env_file env_var load read = .ok v) := by
  refine ⟨?_, ?_, ?_, ?_, ?_, ?_⟩
  · intro dsn env_file env_var load1 load2 read1 read2 hdsn
    constructor <;> simp [resolve_dsn, String.isEmpty_iff, hdsn]
  · intro env_var load read
    simp [resolve_dsn, String.isEmpty_iff]
  · intro env_file env_var load read e hf hl
    simp [resolve_dsn, String.isEmpty_iff, hf, hl]
  · intro env_file load read hf hl
    simp [resolve_dsn, String.isEmpty_iff, hf, hl]
  · intro env_file env_var load read e hf hl hv hr
    simp [resolve_dsn, String.isEmpty_iff, hf, hl, hv, hr]
  · intro env_file env_var load read v hf hl hv hr
    simp [resolve_dsn, String.isEmpty_iff, hf, hl, hv, hr]

/-- Witness for C3 at concrete inputs: a DSN wins even with failing env
capabilities; with no DSN and no env-file the first validation error fires. -/
theorem resolve_dsn_spec_witness :
    resolve_dsn "mysql://u@h/db" "" "" (fun _ => .error "no file") (fun _ => .error "no var")
      = .ok "mysql://u@h/db"
    ∧ resolve_dsn "" "" "DATABASE_URL" (fun _ => .ok ()) (fun _ => .ok "x")
      = .error (.ValidationError "Invalid env-file specified. Either valid DSN or valid env-file is required.") := by
  refine ⟨(resolve_dsn_spec.1 "mysql://u@h/db" "" ""
    (fun _ => .error "no file") (fun _ => .error "no file")
    (fun _ => .error "no var") (fun _ => .error "no var") (by decide)).1, ?_⟩
  exact resolve_dsn_spec.2.1 "DATABASE_URL" (fun _ => .ok ()) (fun _ => .ok "x")

/-- C7: running target generation with the precondition violated — no context,
or at least one unanswered prompt — returns a runtime error and writes no
target. -/
theorem run_requires_ready_context (t : CtGenTask)
    (h : t.context = none ∨ t.prompts_unanswered ≠ []) :
    t.run = ([], some (.ctgen (.RuntimeError "Context not ready to run all render tasks."))) := by
  have hb : t.is_context_ready = false := by
    unfold CtGenTask.is_context_ready
    rcases h with h | h
    · simp [h]
    · simp [h]
  simp [CtGenTask.run, hb]

/-- Witness for C7: a task with no context yet. -/
theorem run_requires_ready_context_witness :
    CtGenTask.run { egTask with context := none }
      = ([], some (.ctgen (.RuntimeError "Context not ready to run all render tasks."))) :=
  run_requires_ready_context { egTask with context := none } (Or.inl rfl)

/-- C2 (evaluation of the code at the failing input): after the generic
prompt "g" is answered "x" and then `PromptDatabase` is answered "db1", both
accepted, the context is constructed fresh — but the previously recorded
answer for "g" is absent from the newly created context immediately after
creation, while it is still recorded in the task's answer map. -/
theorem update_context_drops_prior_answers_on_creation :
    c2Task1.prompt_answers.lookup "g" = some (.str "x")
    ∧ c2Task1.context = none
    ∧ c2Task2.2 = none
    ∧ c2Task2.1.context.isSome = true
    ∧ c2Task2.1.context.map (fun c => c.prompts.lookup "g") = some none
    ∧ c2Task2.1.prompt_answers.lookup "g" = some (.str "x") :=
  ⟨rfl, rfl, rfl, rfl, rfl, rfl⟩

theorem render_prompt_should_ask_value (t : CtGenTask) (p : CtGenPrompt)
    (r : CtGenRenderedPrompt) (h : t.render_prompt p = .ok r) :
    r.should_ask =
      ((match p.condition with
        | some c => (t.render c).toOption
        | none => none).isNone
      || (match p.condition with
        | some c => (t.render c).toOption
        | none => none).any (fun s => rustTrim s == "1")) := by
  unfold CtGenTask.render_prompt at h
  cases hp : t.render p.prompt with
  | error e => rw [hp] at h; cases h
  | ok prompt_text =>
    rw [hp] at h
    by_cases hi : p.options.is_str = true
    · cases ho : t.render ((p.options.as_str).getD "") with
      | error e => simp only [hi, if_true, ho] at h; cases h
      | ok rendered =>
        simp only [hi, if_true, ho] at h
        cases h
        rfl
    · simp only [Bool.not_eq_true] at hi
      simp only [hi, Bool.false_eq_true, if_false] at h
      cases h
      rfl

/-- C8 (amended): `render_prompt` marks the prompt to-be-asked exactly when
the condition is absent, or the condition render fails (the failure being
discarded by `.ok()`), or the condition renders with trim exactly "1"; a
condition that renders successfully to anything else (trimmed) yields
`should_ask = false`. -/
theorem render_prompt_should_ask_characterization (t : CtGenTask) (p : CtGenPrompt)
    (r : CtGenRenderedPrompt) (h : t.render_prompt p = .ok r) :
    r.should_ask = true
      ↔ (p.condition = none
          ∨ ∃ c, p.condition = some c
              ∧ ((∃ e, t.render c = .error e)
                  ∨ (∃ s, t.render c = .ok s ∧ rustTrim s = "1"))) := by
  rw [render_prompt_should_ask_value t p r h]
  cases hc : p.condition with
  | none => simp
  | some c =>
    cases hr : t.render c with
    | error e =>
      simp only [hr, Except.toOption, Option.isNone_none, Option.any_none, Bool.or_false]
      simp only [true_iff]
      exact Or.inr ⟨c, rfl, Or.inl ⟨e, hr⟩⟩
    | ok s =>
      simp only [hr, Except.toOption, Option.isNone_some, Option.any_some, Bool.false_or]
      constructor
      · intro hb
        exact Or.inr ⟨c, rfl, Or.inr ⟨s, hr, of_decide_eq_true (by simpa using hb)⟩⟩
      · rintro (hn | ⟨c2, hc2, (⟨e, he⟩ | ⟨s2, hs2, htrim⟩)⟩)
        · cases hn
        · cases hc2
          rw [hr] at he
          cases he
        · cases hc2
          rw [hr] at hs2
          cases hs2
          simpa using htrim

/-- Witness for C8's amended characterization: a prompt with no condition is
asked. -/
theorem render_prompt_should_ask_characterization_witness :
    ∃ r, egTask.render_prompt c2GenPrompt = .ok r ∧ r.should_ask = true := by
  have h := render_prompt_should_ask_characterization egTask c2GenPrompt
    { should_ask := true, prompt := "color?", options := .bool false, multiple := false } rfl
  exact ⟨_, rfl, h.mpr (Or.inl rfl)⟩

/-- C8 counterexample: a present condition whose render fails — so it did not
render (trimmed) to "1" — still yields `should_ask = true`, refuting
"to-be-asked exactly when the condition is absent or renders trimmed to 1;
any other (trimmed) render result yields should_ask = false". -/
theorem render_prompt_failed_condition_still_asks :
    c8Prompt.condition = some "BADCOND"
    ∧ c8Task.render "BADCOND" = .error (.render "template error")
    ∧ (c8Task.render_prompt c8Prompt).map (fun r => r.should_ask) = .ok true :=
  ⟨rfl, rfl, rfl⟩

theorem build_generic_prompts_eq_none (p : CtGenProfile) (l : List String) (name : String)
    (ha : name ∈ l) (hf : p.promptNamed name = none) : build_generic_prompts p l = none := by
  induction l with
  | nil => cases ha
  | cons x xs ih =>
    rcases List.mem_cons.mp ha with h | h
    · subst h
      simp [build_generic_prompts, hf]
    · cases hx : p.promptNamed x with
      | none => simp [build_generic_prompts, hx]
      | some d => simp [build_generic_prompts, hx, ih h]

theorem validate_targets_shape (p : CtGenProfile) (fe : String → Bool) (dir : String) :
    ∀ l : List String, p.validate_targets fe dir l = .ok ()
      ∨ ∃ msg, p.validate_targets fe dir l = .error (.ValidationError msg) := by
  intro l
  induction l with
  | nil => exact Or.inl rfl
  | cons name rest ih =>
    cases ht : p.targetNamed name with
    | none =>
      refine Or.inr ⟨"Invalid target `" ++ name
        ++ "`. Make sure all included targets are actually declared.", ?_⟩
      simp [CtGenProfile.validate_targets, ht]
    | some target =>
      by_cases hf : fe (CtGen.get_filepath dir (target.template ++ ".hbs")) = true
      · rcases ih with h | ⟨msg, h⟩
        · exact Or.inl (by simp [CtGenProfile.validate_targets, ht, hf, h])
        · exact Or.inr ⟨msg, by simp [CtGenProfile.validate_targets, ht, hf, h]⟩
      · simp only [Bool.not_eq_true] at hf
        refine Or.inr ⟨"Template file not found for target " ++ name ++ ".", ?_⟩
        simp [CtGenProfile.validate_targets, ht, hf]

theorem validate_targets_ne_ok (p : CtGenProfile) (fe : String → Bool) (dir : String) :
    ∀ l : List String, (∃ name ∈ l, p.targetNamed name = none) →
      p.validate_targets fe dir l ≠ .ok () := by
  intro l
  induction l with
  | nil => rintro ⟨name, hmem, _⟩; cases hmem
  | cons nm rest ih =>
    rintro ⟨name, hmem, hnone⟩ hok
    rcases List.mem_cons.mp hmem with h | h
    · subst h
      simp [CtGenProfile.validate_targets, hnone] at hok
    · cases ht : p.targetNamed nm with
      | none => simp [CtGenProfile.validate_targets, ht] at hok
      | some target =>
        by_cases hf : fe (CtGen.get_filepath dir (target.template ++ ".hbs")) = true
        · simp only [CtGenProfile.validate_targets, ht, hf, Bool.not_true, if_false] at hok
          exact ih ⟨name, h, hnone⟩ hok
        · simp only [Bool.not_eq_true] at hf
          simp [CtGenProfile.validate_targets, ht, hf] at hok

/-- C4 (amended): a target identifier listed in the target list but missing
from the target mapping is reported by profile validation as a
`ValidationError`; a prompt identifier listed in the prompt list but missing
from the prompt mapping, however, makes task construction panic at
`profile.prompt(name).unwrap()` rather than return a validation error — task
construction over such a profile can never return a task. -/
theorem listed_identifier_missing_from_mapping (p : CtGenProfile) (fe : String → Bool)
    (w : ExternalWorld) (context_dir : String) (table : Option String)
    (ov : Option CtGenProfileConfigOverrides) :
    (fe p.templatesDir = true → fe p.scriptsDir = true →
      (∃ name ∈ p.targetsList, p.targetNamed name = none) →
      ∃ msg, p.validate fe = .error (.ValidationError msg))
    ∧ ((∃ name ∈ p.promptsList, p.promptNamed name = none) →
        ∀ task, CtGenTask.new w p context_dir table ov ≠ .ok task) := by
  constructor
  · intro ht hs hmiss
    have hne := validate_targets_ne_ok p fe p.templatesDir p.targetsList hmiss
    rcases validate_targets_shape p fe p.templatesDir p.targetsList with h | ⟨msg, h⟩
    · exact absurd h hne
    · exact ⟨msg, by simp [CtGenProfile.validate, ht, hs, h]⟩
  · rintro ⟨name, hmem, hnone⟩ task heq
    have hmap : build_generic_prompts p p.promptsList = none :=
      build_generic_prompts_eq_none p p.promptsList name hmem hnone
    unfold CtGenTask.new at heq
    simp only [hmap] at heq
    repeat' split at heq
    all_goals cases heq

/-- C4 counterexample: a concrete profile declaring prompt id "p" with an
empty prompt mapping, for which every earlier construction step succeeds;
task construction panics instead of returning a validation error. -/
theorem new_panics_on_missing_prompt_mapping :
    CtGenTask.new c4World c4Profile "/ctx" (some "t1") none = .panicked := rfl

theorem run_targets_break (t : CtGenTask) (name : String) (l2 : List String)
    (target : CtGenTarget) (c s : String)
    (hname : t.profile.targetNamed name = some target)
    (hcond : target.condition = some c)
    (hrender : t.render c = .ok s)
    (hne : rustTrim s ≠ "1") :
    ∀ (l1 : List String) (ws : List WrittenFile),
      List.Forall₂ (fun nm w => ∃ tg, t.profile.targetNamed nm = some tg
        ∧ (∀ cc, tg.condition = some cc → ∃ ss, t.render cc = .ok ss ∧ rustTrim ss = "1")
        ∧ t.render_target tg = .ok w) l1 ws →
      t.run_targets (l1 ++ name :: l2) = (ws, none) := by
  intro l1
  induction l1 with
  | nil =>
    intro ws h
    cases h
    have hbne : (rustTrim s != "1") = true := by
      simp [bne, hne]
    simp [CtGenTask.run_targets, hname, hcond, hrender, hbne]
  | cons nm rest ih =>
    intro ws h
    cases h with
    | cons hrel hrest =>
      obtain ⟨tg, htg, hcondpass, hwrite⟩ := hrel
      cases hc2 : tg.condition with
      | none =>
        simp [CtGenTask.run_targets, htg, hc2, hwrite, ih _ hrest]
      | some cc =>
        obtain ⟨ss, hss, htr⟩ := hcondpass cc hc2
        have hbne : (rustTrim ss != "1") = false := by
          simp [bne, htr]
        simp [CtGenTask.run_targets, htg, hc2, hss, hbne, hwrite, ih _ hrest]

/-- C1: targets are processed in profile declaration order, and the loop
aborts on the first failed condition: when every target before `name` exists,
passes its condition (absent, or rendering trimmed to "1") and renders
successfully, and `name`'s condition renders (trimmed) to something other
than "1", `run` returns success having written exactly the files of the
targets before `name` — neither `name` nor any later target is generated. -/
theorem run_aborts_on_first_failed_condition (t : CtGenTask)
    (l1 : List String) (name : String) (l2 : List String) (ws : List WrittenFile)
    (target : CtGenTarget) (c s : String)
    (hready : t.is_context_ready = true)
    (hlist : t.profile.targetsList = l1 ++ name :: l2)
    (hpass : List.Forall₂ (fun nm w => ∃ tg, t.profile.targetNamed nm = some tg
        ∧ (∀ cc, tg.condition = some cc → ∃ ss, t.render cc = .ok ss ∧ rustTrim ss = "1")
        ∧ t.render_target tg = .ok w) l1 ws)
    (hname : t.profile.targetNamed name = some target)
    (hcond : target.condition = some c)
    (hrender : t.render c = .ok s)
    (hne : rustTrim s ≠ "1") :
    t.run = (ws, none) := by
  unfold CtGenTask.run
  rw [hready]
  simp only [Bool.not_true, Bool.false_eq_true, if_false]
  rw [hlist]
  exact run_targets_break t name l2 target c s hname hcond hrender hne l1 ws hpass

/-- Witness for C1 on a concrete three-target profile whose second target's
condition renders to "0": target "a" is rendered and written, targets "b"
and "c" are not. -/
theorem run_aborts_on_first_failed_condition_witness :
    c1Task.run = ([{ path := "/ctx/out/fa.txt", contents := "body-ta" }], none) := by
  apply run_aborts_on_first_failed_condition c1Task ["a"] "b" ["c"]
    [{ path := "/ctx/out/fa.txt", contents := "body-ta" }] c1TargetB "0" "0"
  · rfl
  · rfl
  · refine List.Forall₂.cons ⟨c1TargetA, rfl, ?_, rfl⟩ List.Forall₂.nil
    intro cc hcc
    cases hcc
  · rfl
  · rfl
  · rfl
  · decide


/-- Witness for C4's amended statement at concrete profiles: the missing
target id "z" makes validation fail with a `ValidationError`, and the missing
prompt id "p" makes task construction unable to return a task. -/
theorem listed_identifier_missing_from_mapping_witness :
    (∃ msg, c4bProfile.validate (fun _ => true) = .error (.ValidationError msg))
    ∧ (∀ task, CtGenTask.new c4World c4Profile "/ctx" (some "t1") none ≠ .ok task) := by
  have h := listed_identifier_missing_from_mapping c4bProfile (fun _ => true) c4World
    "/ctx" (some "t1") none
  have h2 := listed_identifier_missing_from_mapping c4Profile (fun _ => true) c4World
    "/ctx" (some "t1") none
  exact ⟨h.1 rfl rfl ⟨"z", by decide, rfl⟩, h2.2 ⟨"p", by decide, rfl⟩⟩
